import Mathlib

/-
  Verification of the fiber-market-analysis front-end core logic.

  Shallow embedding of the JavaScript sources:
  - src/unnamed/part_001 (data module: DataHandler.loadData, ColorScales.getColor
    with its memoization cache; this is the live version of the module, since
    src/js/main.js calls DataHandler.getLoadError, defined only there)
  - src/js/map.js (MapRenderer.isFiltered, MapRenderer.drillDownToNY,
    MapRenderer.handleCountyClick, InfoPanel.pinCounty, InfoPanel.unpinCounty,
    TableManager.applyFilters, TableManager.setupEventListeners column sort,
    InfoPanel.showCountyInfo and showStateInfo operator lists)

  JavaScript numbers are modelled as rationals, with non-finite values (NaN and
  infinities) modelled by the none case of an Option, since every embedded code
  path branches on Number.isFinite before comparing. Rational constants are
  written with mkRat so that all definitions evaluate inside the kernel.
-/

namespace FiberMarket

-- ===========================================================================
-- Color Scale Engine: ColorScales in src/unnamed/part_001 (lines 220-289)
-- ===========================================================================

/-- One entry of a color scale: an upper-bound threshold with a color and a
display label. Mirrors the literal objects in ColorScales. -/
structure ScaleEntry where
  threshold : ℚ
  color : String
  label : String
  deriving DecidableEq

/-- ColorScales.penetration (part_001 lines 225-231). -/
def penetrationScale : List ScaleEntry :=
  [⟨mkRat 3 10, "#fecaca", "<30%"⟩,
   ⟨mkRat 1 2, "#fde68a", "30-50%"⟩,
   ⟨mkRat 7 10, "#d9f99d", "50-70%"⟩,
   ⟨mkRat 17 20, "#bbf7d0", "70-85%"⟩,
   ⟨1, "#86efac", ">85%"⟩]

/-- ColorScales.demographic (part_001 lines 233-239). -/
def demographicScale : List ScaleEntry :=
  [⟨mkRat 1 5, "#fecaca", "Poor"⟩,
   ⟨mkRat 2 5, "#fed7aa", "Below Avg"⟩,
   ⟨mkRat 3 5, "#fde68a", "Average"⟩,
   ⟨mkRat 4 5, "#d9f99d", "Good"⟩,
   ⟨1, "#86efac", "Excellent"⟩]

/-- ColorScales.attractiveness (part_001 lines 241-247). -/
def attractivenessScale : List ScaleEntry :=
  [⟨mkRat 1 5, "#fecaca", "Least Attractive"⟩,
   ⟨mkRat 3 10, "#fed7aa", "Low"⟩,
   ⟨mkRat 2 5, "#fde68a", "Neutral"⟩,
   ⟨mkRat 1 2, "#d9f99d", "Good"⟩,
   ⟨1, "#86efac", "Most Attractive"⟩]

/-- The three named scales of ColorScales (the layer argument of getColor). -/
inductive Layer where
  | penetration
  | demographic
  | attractiveness
  deriving DecidableEq

/-- Dispatch this[layer] to the scale array. -/
def scaleOf : Layer → List ScaleEntry
  | .penetration => penetrationScale
  | .demographic => demographicScale
  | .attractiveness => attractivenessScale

/-- The string name of a layer, as used in the cache key of getColor. -/
def layerName : Layer → String
  | .penetration => "penetration"
  | .demographic => "demographic"
  | .attractiveness => "attractiveness"

/-- The fixed neutral color returned for non-finite input or unknown scales. -/
def neutralColor : String := "#cbd5e1"

/-- Mirrors the expression scale[scale.length - 1].color, the initial value of
the color variable in getColor (and the fallthrough return of the part_000
variant). Total on the empty list via the neutral color; every scale in the
source is a concrete non-empty literal, so that default is never consulted. -/
def lastEntryColor (scale : List ScaleEntry) : String :=
  (scale.getLast?).elim neutralColor ScaleEntry.color

/-- The for-loop of getColor (part_001 lines 266-271): scan the entries in
array order and take the first whose threshold is greater than or equal to the
value; the accumulator starts at the color of the last entry. -/
def colorLoop (v : ℚ) : List ScaleEntry → String → String
  | [], acc => acc
  | e :: rest, acc => if v ≤ e.threshold then e.color else colorLoop v rest acc

/-- The cache-free computation performed by ColorScales.getColor on a value:
the neutral color for non-finite input (Number.isFinite guard, line 251),
otherwise the threshold scan. none models a non-finite JS number. -/
def getColorPure (layer : Layer) (v : Option ℚ) : String :=
  match v with
  | none => neutralColor
  | some q => colorLoop q (scaleOf layer) (lastEntryColor (scaleOf layer))

/-- Model of value.toFixed(3) as used in the cache key (line 259): the value
rounded to the nearest thousandth, represented by an integer count of
thousandths. round3 q = floor(1000 q + 1/2), computed on num and den so that
the kernel can evaluate it. -/
def round3 (q : ℚ) : ℤ := (2000 * q.num + (q.den : ℤ)) / ((2 * q.den : ℕ) : ℤ)

/-- The memoization cache of ColorScales (_colorCache): a map from
(layer name, rounded value) keys to colors, modelled as an association list
with most recent insertion first. -/
structure CacheState where
  entries : List ((String × ℤ) × String)
  deriving DecidableEq

/-- The empty cache (initial state, and the state after clearCache). -/
def emptyCache : CacheState := ⟨[]⟩

/-- Lookup in the association list modelling Map.prototype.get/has. -/
def cacheFind (key : String × ℤ) : List ((String × ℤ) × String) → Option String
  | [] => none
  | (k, c) :: rest => if k = key then some c else cacheFind key rest

/-- ColorScales.getColor with its cache (part_001 lines 249-280): non-finite
input returns the neutral color without touching the cache; otherwise the
(layer, value.toFixed(3)) key is looked up, and on a miss the scanned color is
computed and inserted (after a full clear when the cache holds more than 1000
entries). Returns the color and the updated cache. -/
def getColorCached (layer : Layer) (v : Option ℚ) (c : CacheState) :
    String × CacheState :=
  match v with
  | none => (neutralColor, c)
  | some q =>
    let key : String × ℤ := (layerName layer, round3 q)
    match cacheFind key c.entries with
    | some col => (col, c)
    | none =>
      let col := colorLoop q (scaleOf layer) (lastEntryColor (scaleOf layer))
      let kept := if 1000 < c.entries.length then [] else c.entries
      (col, ⟨(key, col) :: kept⟩)

/-- The cache contents after a sequence of getColor calls. -/
def cacheAfter : List (Layer × Option ℚ) → CacheState → CacheState
  | [], c => c
  | (l, v) :: rest, c => cacheAfter rest (getColorCached l v c).2

/-- Spec-side description of the lookup (section 8 of the spec): the color of
the first entry, in threshold order, whose threshold is at least the value,
defaulting to the color of the last entry when the value exceeds them all. -/
def specFirstColorGE (scale : List ScaleEntry) (v : ℚ) : String :=
  ((scale.find? fun e => decide (v ≤ e.threshold)).map ScaleEntry.color).getD
    (lastEntryColor scale)

/-- A value is exact at three decimals: an integer count of thousandths.
These are the values on which the toFixed(3) cache key is injective. -/
def exact3 (q : ℚ) : Prop := ∃ n : ℤ, q = mkRat n 1000

/-- Every cache entry is the pure color of some exact-thousandths value whose
key is the entry key. -/
def CacheConsistent (c : CacheState) : Prop :=
  ∀ p ∈ c.entries, ∃ (l : Layer) (q : ℚ),
    p.1 = (layerName l, round3 q) ∧ exact3 q ∧ p.2 = getColorPure l (some q)

/-- A boolean strict-ascent check on a list of thresholds. -/
def strictIncr : List ℚ → Bool
  | [] => true
  | [_] => true
  | a :: b :: rest => decide (a < b) && strictIncr (b :: rest)

-- ===========================================================================
-- Data Repository: DataHandler.loadData in src/unnamed/part_001 (lines 104-174)
-- ===========================================================================

/-- Outcome of one fetch followed by response.json(): the promise was rejected,
or a response arrived with the given ok flag whose body parses to the payload
(none models a json() parse failure). -/
inductive FetchOutcome (α : Type) where
  | rejected
  | response (ok : Bool) (parsed : Option α)
  deriving DecidableEq

/-- The mutable fields of DataHandler. The NY unified dataset is modelled as a
list of opaque county records (so that the _validateData sample-record access
is expressible); the other three payloads are opaque. -/
structure DHState where
  unifiedData : Option (List ℕ)
  tigerGeoJSON : Option ℕ
  stateData : Option ℕ
  usGeoJSON : Option ℕ
  isLoadedFlag : Bool
  loadErrorMsg : Option String
  deriving DecidableEq

/-- The catch block of loadData (lines 142-147): record the error, clear
_isLoaded, leave the dataset fields as they currently are. -/
def failState (s : DHState) (msg : String) : DHState :=
  { s with isLoadedFlag := false, loadErrorMsg := some msg }

/-- DataHandler.loadData (lines 115-148): four parallel fetches; any rejection
fails before any assignment; the four ok checks run before any assignment;
then the four json() results are assigned to the dataset fields one at a time,
so a parse failure aborts after the earlier fields were already overwritten.
_validateData (lines 150-166) only warns, except that an empty unified dataset
makes its sample-record field test throw (field in undefined), which lands in
the catch after all four fields were assigned. -/
def loadData (s : DHState) (o1 : FetchOutcome (List ℕ))
    (o2 o3 o4 : FetchOutcome ℕ) : DHState × Bool :=
  match o1, o2, o3, o4 with
  | .rejected, _, _, _ => (failState s "fetch rejected", false)
  | _, .rejected, _, _ => (failState s "fetch rejected", false)
  | _, _, .rejected, _ => (failState s "fetch rejected", false)
  | _, _, _, .rejected => (failState s "fetch rejected", false)
  | .response ok1 p1, .response ok2 p2, .response ok3 p3, .response ok4 p4 =>
    if !ok1 then (failState s "Failed to load NY unified data", false)
    else if !ok2 then (failState s "Failed to load NY GeoJSON", false)
    else if !ok3 then (failState s "Failed to load state fiber data", false)
    else if !ok4 then (failState s "Failed to load US GeoJSON", false)
    else
      match p1 with
      | none => (failState s "parse error", false)
      | some v1 =>
        let s1 := { s with unifiedData := some v1 }
        match p2 with
        | none => (failState s1 "parse error", false)
        | some v2 =>
          let s2 := { s1 with tigerGeoJSON := some v2 }
          match p3 with
          | none => (failState s2 "parse error", false)
          | some v3 =>
            let s3 := { s2 with stateData := some v3 }
            match p4 with
            | none => (failState s3 "parse error", false)
            | some v4 =>
              let s4 := { s3 with usGeoJSON := some v4 }
              if v1 = [] then (failState s4 "validation TypeError", false)
              else ({ s4 with isLoadedFlag := true, loadErrorMsg := none }, true)

/-- Whether an outcome is a rejected promise. -/
def isRejected {α : Type} : FetchOutcome α → Bool
  | .rejected => true
  | .response _ _ => false

/-- Whether an outcome is a response that fails the response.ok check. -/
def isNotOk {α : Type} : FetchOutcome α → Bool
  | .rejected => false
  | .response ok _ => !ok

/-- A transport-level failure: some fetch rejected or some response is not ok.
These are the failures that occur before any assignment to the fields. -/
def transportFails (o1 : FetchOutcome (List ℕ)) (o2 o3 o4 : FetchOutcome ℕ) :
    Bool :=
  isRejected o1 || isRejected o2 || isRejected o3 || isRejected o4 ||
    isNotOk o1 || isNotOk o2 || isNotOk o3 || isNotOk o4

/-- The four dataset fields, the subject of the atomicity claim. -/
def datasets (s : DHState) :
    Option (List ℕ) × Option ℕ × Option ℕ × Option ℕ :=
  (s.unifiedData, s.tigerGeoJSON, s.stateData, s.usGeoJSON)

/-- A concrete previous successful state, used to exhibit partial mutation. -/
def c3PrevState : DHState := ⟨some [1], some 2, some 3, some 4, true, none⟩

-- ===========================================================================
-- Region records and the filter predicate: MapRenderer.isFiltered
-- (src/js/map.js lines 460-466)
-- ===========================================================================

/-- One entry of the operators array of a region record: a name and a
service-passings count. A missing passings field is none (the comparator and
the display apply the JavaScript fallback passings or 0). -/
structure Operator where
  opName : String
  passings : Option ℕ
  deriving DecidableEq

/-- A county record of the unified dataset, restricted to the fields the
embedded operations read. A numeric field holds none when the JSON record has
it missing or undefined. -/
structure County where
  name : String
  is_nyc_borough : Bool
  population_2023 : Option ℚ
  housing_density : Option ℚ
  operators : List Operator
  deriving DecidableEq

/-- MapRenderer.filters (map.js lines 74-78). -/
structure Filters where
  minPop : ℚ
  minDensity : ℚ
  excludeNYC : Bool
  deriving DecidableEq

/-- The initial filter settings (map.js lines 74-78). -/
def initialFilters : Filters := ⟨0, 0, false⟩

/-- The JavaScript comparison field < bound when the field may be undefined:
undefined < x evaluates to false (NaN comparison). -/
def jsLt (a : Option ℚ) (b : ℚ) : Bool :=
  match a with
  | none => false
  | some x => decide (x < b)

/-- MapRenderer.isFiltered (map.js lines 460-466): a missing record is
excluded; then the NYC-borough exclusion, the population floor and the
density floor each exclude in turn. -/
def isFiltered (flt : Filters) (county : Option County) : Bool :=
  match county with
  | none => true
  | some c =>
    if flt.excludeNYC && c.is_nyc_borough then true
    else if jsLt c.population_2023 flt.minPop then true
    else if jsLt c.housing_density flt.minDensity then true
    else false

-- ===========================================================================
-- Map view state: MapRenderer.drillDownToNY (map.js lines 287-374)
-- ===========================================================================

/-- The view-state fields of MapRenderer touched by drillDownToNY: the
granularity string, the rendered contents of the map group (a list of
rendered feature identifiers), the keyboard focus index, and the stored
county elements. -/
structure MapViewState where
  currentView : String
  mapContent : List String
  focusedCountyIndex : ℤ
  countyElements : List String
  deriving DecidableEq

/-- MapRenderer.drillDownToNY (map.js lines 287-374), with rendering
abstracted to storing the feature identifiers: the method first sets
currentView to ny, clears the map group and resets the focus index
(lines 288-290); only then does it read the NY GeoJSON and return early when
it is absent (lines 294-298); otherwise it renders the county paths and
stores the county elements. -/
def drillDownToNY (geo : Option (List String)) (s : MapViewState) :
    MapViewState :=
  let s1 := { s with currentView := "ny", mapContent := [],
                     focusedCountyIndex := -1 }
  match geo with
  | none => s1
  | some features =>
    { s1 with mapContent := features, countyElements := features }

/-- A concrete national-view state before an attempted drill-down. -/
def c4StartState : MapViewState := ⟨"us", ["state:NY", "state:CA"], 5, []⟩

-- ===========================================================================
-- Pinned selection: InfoPanel.pinCounty / unpinCounty (map.js lines 578-605)
-- and MapRenderer.handleCountyClick (map.js lines 422-431)
-- ===========================================================================

/-- The selection state shared by InfoPanel and the map: the pinned county
fips (null when nothing is pinned), the per-county pinned CSS class, the
pin-indicator visibility, and which county the detail panel displays.
hasData is passed to the operations as the repository lookup
DataHandler.getCountyData, abstracted to record presence. -/
structure PinState where
  pinnedCounty : Option String
  pinnedClass : String → Bool
  pinIndicatorShown : Bool
  displayedCounty : Option String

/-- InfoPanel.showCountyInfo (map.js lines 664-755): returns immediately when
the repository has no record for the fips, otherwise displays that county in
the detail panel. Only the display field is touched. -/
def showCountyInfo (hasData : String → Bool) (fips : String) (s : PinState) :
    PinState :=
  if hasData fips then { s with displayedCounty := some fips } else s

/-- InfoPanel.hideInfo (map.js lines 757-761). -/
def hideInfo (s : PinState) : PinState := { s with displayedCounty := none }

/-- InfoPanel.pinCounty (map.js lines 578-592): set pinnedCounty, show the
county info, show the pin indicator, and set the pinned class exactly on the
county with this fips (a single classed pass over all counties). -/
def pinCounty (hasData : String → Bool) (fips : String) (s : PinState) :
    PinState :=
  let s1 := { s with pinnedCounty := some fips }
  let s2 := showCountyInfo hasData fips s1
  { s2 with pinIndicatorShown := true,
            pinnedClass := fun x => decide (x = fips) }

/-- InfoPanel.unpinCounty (map.js lines 594-605): clear pinnedCounty, hide the
pin indicator, clear the pinned class on every county, and hide the info. -/
def unpinCounty (s : PinState) : PinState :=
  let s1 := { s with pinnedCounty := none, pinIndicatorShown := false,
                     pinnedClass := fun _ => false }
  hideInfo s1

/-- MapRenderer.handleCountyClick (map.js lines 422-431): clicking the pinned
county unpins it, clicking any other county pins it. -/
def handleCountyClick (hasData : String → Bool) (fips : String)
    (s : PinState) : PinState :=
  if s.pinnedCounty = some fips then unpinCounty s
  else pinCounty hasData fips s

/-- The state after a sequence of county clicks. -/
def runClicks (hasData : String → Bool) : List String → PinState → PinState
  | [], s => s
  | f :: rest, s => runClicks hasData rest (handleCountyClick hasData f s)

/-- The initial selection state: nothing pinned, no pinned class, indicator
hidden, default message shown. -/
def initialPinState : PinState := ⟨none, fun _ => false, false, none⟩

-- ===========================================================================
-- Table sort state: TableManager.setupEventListeners (map.js lines 889-910)
-- ===========================================================================

/-- A sort direction of the county table. -/
inductive SortDir where
  | asc
  | desc
  deriving DecidableEq

/-- The ternary this.sortDirection === asc ? desc : asc. -/
def toggleDir : SortDir → SortDir
  | .asc => .desc
  | .desc => .asc

/-- TableManager sort state (map.js lines 769-770). -/
structure SortState where
  sortColumn : String
  sortDirection : SortDir
  deriving DecidableEq

/-- The sort-header click handler (map.js lines 891-900): reselecting the
current column toggles the direction, selecting a new column sets it with
descending direction. -/
def clickSortHeader (column : String) (s : SortState) : SortState :=
  if s.sortColumn = column then
    { s with sortDirection := toggleDir s.sortDirection }
  else
    { sortColumn := column, sortDirection := .desc }

-- ===========================================================================
-- Table search: TableManager.applyFilters (map.js lines 929-942)
-- ===========================================================================

/-- Character-level model of String.prototype.toLowerCase (ASCII letters). -/
def toLowerStr (s : String) : String := ⟨s.data.map Char.toLower⟩

/-- Whether the first character list is an initial segment of the second. -/
def charsMatchAt : List Char → List Char → Bool
  | [], _ => true
  | _ :: _, [] => false
  | a :: as, b :: bs => decide (a = b) && charsMatchAt as bs

/-- Whether the first character list occurs contiguously in the second:
String.prototype.includes at the character level. -/
def charsContain (sub : List Char) : List Char → Bool
  | [] => sub.isEmpty
  | b :: rest => charsMatchAt sub (b :: rest) || charsContain sub rest

/-- JavaScript s.includes(sub). -/
def jsIncludes (s sub : String) : Bool := charsContain sub.data s.data

/-- JavaScript string falsiness: only the empty string is falsy. -/
def strFalsy (s : String) : Bool := s.data.isEmpty

/-- The body of TableManager.applyFilters for one row (map.js lines 932-940):
a missing record hides the row; otherwise the row is hidden when the filter
predicate excludes the county or the lowercased name does not contain the
stored search term. The stored term is already lowercase, because the input
handler assigns e.target.value.toLowerCase() (line 922). -/
def rowHidden (flt : Filters) (searchTerm : String) (county : Option County) :
    Bool :=
  match county with
  | none => true
  | some c =>
    let matchesSearch :=
      strFalsy searchTerm || jsIncludes (toLowerStr c.name) searchTerm
    isFiltered flt (some c) || !matchesSearch

/-- Spec-side case-insensitive substring match on the name. -/
def ciContains (name term : String) : Bool :=
  jsIncludes (toLowerStr name) (toLowerStr term)

-- ===========================================================================
-- Operator top-N display: InfoPanel.showCountyInfo (map.js lines 727-750)
-- and InfoPanel.showStateInfo (map.js lines 636-650)
-- ===========================================================================

/-- The JavaScript fallback op.passings or 0 used by the sort comparator. -/
def passingsVal (op : Operator) : ℕ := op.passings.getD 0

/-- The descending-passings order induced by the comparator
(b.passings or 0) - (a.passings or 0). -/
def opGE (a b : Operator) : Prop := passingsVal b ≤ passingsVal a

instance : DecidableRel opGE := fun a b =>
  inferInstanceAs (Decidable (passingsVal b ≤ passingsVal a))

instance : IsTotal Operator opGE :=
  ⟨fun a b => le_total (passingsVal b) (passingsVal a)⟩

instance : IsTrans Operator opGE :=
  ⟨fun _ _ _ h1 h2 => le_trans h2 h1⟩

/-- The stable descending sort [...data.operators].sort((a, b) =>
(b.passings or 0) - (a.passings or 0)) of showCountyInfo (lines 733-734). -/
def sortOperators (l : List Operator) : List Operator :=
  l.insertionSort opGE

/-- The county detail panel operator list (map.js lines 733-735): sort by
passings descending, take the first five. -/
def topCountyOperators (c : County) : List Operator :=
  (sortOperators c.operators).take 5

/-- The state detail panel operator list (map.js line 640):
data.operators.slice(0, 6) with no sort. -/
def topStateOperators (ops : List Operator) : List Operator :=
  ops.take 6

/-- The ranking property claimed for a displayed operator list: the displayed
operators are in descending passings order, and every displayed operator has
at least the passings of every operator left out. -/
def RankedTopN (shown rest : List Operator) : Prop :=
  List.Sorted opGE shown ∧
    ∀ a ∈ shown, ∀ b ∈ rest, passingsVal b ≤ passingsVal a

/-- A concrete operators list on which the state panel order is not ranked. -/
def c10Ops : List Operator := [⟨"OpA", some 1⟩, ⟨"OpB", some 5⟩]

-- ===========================================================================
-- Helper lemmas
-- ===========================================================================

/-- The accumulator form of the getColor loop computes the color of the first
entry whose threshold is at least the value, defaulting to the accumulator. -/
theorem colorLoop_eq_find (v : ℚ) :
    ∀ (s : List ScaleEntry) (acc : String),
      colorLoop v s acc =
        ((s.find? fun e => decide (v ≤ e.threshold)).map ScaleEntry.color).getD
          acc
  | [], _ => rfl
  | e :: rest, acc => by
    by_cases h : v ≤ e.threshold
    · simp [colorLoop, List.find?_cons, h]
    · simp [colorLoop, List.find?_cons, h, colorLoop_eq_find v rest acc]

/-- The empty character list occurs in every character list. -/
theorem charsContain_nil : ∀ l : List Char, charsContain [] l = true
  | [] => rfl
  | _ :: _ => rfl

/-- The fields of the state produced by pinCounty. -/
theorem pinCounty_fields (hasData : String → Bool) (f : String) (s : PinState) :
    (pinCounty hasData f s).pinnedCounty = some f ∧
    (pinCounty hasData f s).pinnedClass = (fun x => decide (x = f)) ∧
    (pinCounty hasData f s).pinIndicatorShown = true ∧
    (pinCounty hasData f s).displayedCounty =
      (if hasData f then some f else s.displayedCounty) := by
  unfold pinCounty showCountyInfo
  by_cases h : hasData f <;> simp [h]

/-- unpinCounty fully determines the selection state. -/
theorem unpinCounty_eq (s : PinState) :
    unpinCounty s = ⟨none, fun _ => false, false, none⟩ := rfl

/-- Clicking a county that is not currently pinned takes the pin branch. -/
theorem handleCountyClick_of_ne (hasData : String → Bool) (f : String)
    (s : PinState) (h : s.pinnedCounty ≠ some f) :
    handleCountyClick hasData f s = pinCounty hasData f s := if_neg h

/-- After any county click, the pinned CSS class marks exactly the pinned
county. -/
theorem click_class_inv (hasData : String → Bool) (f : String) (s : PinState) :
    ∀ x, ((handleCountyClick hasData f s).pinnedClass x = true ↔
      (handleCountyClick hasData f s).pinnedCounty = some x) := by
  intro x
  unfold handleCountyClick
  by_cases hp : s.pinnedCounty = some f
  · rw [if_pos hp, unpinCounty_eq]
    simp
  · rw [if_neg hp]
    have hc := congrFun (pinCounty_fields hasData f s).2.1 x
    rw [hc, (pinCounty_fields hasData f s).1]
    simp [eq_comm]

/-- The class-marks-exactly-the-pin invariant is preserved along any click
sequence. -/
theorem runClicks_inv (hasData : String → Bool) :
    ∀ (evs : List String) (s : PinState),
      (∀ x, (s.pinnedClass x = true ↔ s.pinnedCounty = some x)) →
      ∀ x, ((runClicks hasData evs s).pinnedClass x = true ↔
        (runClicks hasData evs s).pinnedCounty = some x)
  | [], _, h => h
  | f :: rest, s, _ =>
    runClicks_inv hasData rest (handleCountyClick hasData f s)
      (click_class_inv hasData f s)

/-- round3 computes the floor of 1000 q + 1/2. -/
theorem round3_eq_floor (q : ℚ) : round3 q = ⌊(1000 : ℚ) * q + 1 / 2⌋ := by
  have hd : ((q.den : ℚ)) ≠ 0 := by
    exact_mod_cast q.den_nz
  have hq := Rat.num_div_den q
  have h : (1000 : ℚ) * q + 1 / 2
      = ((2000 * q.num + (q.den : ℤ) : ℤ) : ℚ) / ((2 * q.den : ℕ) : ℚ) := by
    conv_lhs => rw [← hq]
    push_cast
    field_simp
    ring
  rw [round3, h, Rat.floor_intCast_div_natCast]

/-- On exact-thousandths values, round3 recovers the thousandths count. -/
theorem round3_thousandth (n : ℤ) : round3 (mkRat n 1000) = n := by
  rw [round3_eq_floor, Rat.mkRat_eq_div]
  push_cast
  rw [show (1000 : ℚ) * ((n : ℚ) / 1000) + 1 / 2 = (n : ℚ) + 1 / 2 by
    field_simp]
  rw [Int.floor_int_add]
  norm_num

/-- The three layer names are distinct. -/
theorem layerName_inj : ∀ a b : Layer, layerName a = layerName b → a = b := by
  intro a b h
  cases a <;> cases b <;> first | rfl | exact absurd h (by decide)

/-- A successful cache lookup comes from a stored entry. -/
theorem cacheFind_mem (key : String × ℤ) :
    ∀ (l : List ((String × ℤ) × String)) (col : String),
      cacheFind key l = some col → (key, col) ∈ l
  | [], col, h => by simp [cacheFind] at h
  | (k, c0) :: rest, col, h => by
    by_cases hk : k = key
    · subst hk
      rw [cacheFind, if_pos rfl] at h
      injection h with h2
      subst h2
      exact List.mem_cons_self _ _
    · rw [cacheFind, if_neg hk] at h
      exact List.mem_cons_of_mem _ (cacheFind_mem key rest col h)

/-- On a consistent cache, a lookup of an exact-thousandths value returns the
pure color and preserves consistency. -/
theorem getColorCached_exact (layer : Layer) (v : ℚ) (c : CacheState)
    (hc : CacheConsistent c) (hv : exact3 v) :
    (getColorCached layer (some v) c).1 = getColorPure layer (some v) ∧
    CacheConsistent (getColorCached layer (some v) c).2 := by
  obtain ⟨n, rfl⟩ := hv
  cases hfind : cacheFind (layerName layer, round3 (mkRat n 1000)) c.entries
    with
  | some col =>
    have hmem := cacheFind_mem _ c.entries col hfind
    obtain ⟨l2, q2, hkey, hex, hcol⟩ := hc _ hmem
    obtain ⟨m, rfl⟩ := hex
    have hname : layerName layer = layerName l2 := congrArg Prod.fst hkey
    have hr3 : round3 (mkRat n 1000) = round3 (mkRat m 1000) :=
      congrArg Prod.snd hkey
    have hlayer : l2 = layer := layerName_inj l2 layer hname.symm
    have hnm : n = m := by
      rw [round3_thousandth, round3_thousandth] at hr3
      exact hr3
    have hcol2 : col = getColorPure l2 (some (mkRat m 1000)) := hcol
    rw [hlayer, ← hnm] at hcol2
    constructor
    · rw [show (getColorCached layer (some (mkRat n 1000)) c).1 = col by
        simp [getColorCached, hfind]]
      exact hcol2
    · rw [show (getColorCached layer (some (mkRat n 1000)) c).2 = c by
        simp [getColorCached, hfind]]
      exact hc
  | none =>
    constructor
    · simp [getColorCached, hfind, getColorPure]
    · rw [show (getColorCached layer (some (mkRat n 1000)) c).2 =
          ⟨((layerName layer, round3 (mkRat n 1000)),
             colorLoop (mkRat n 1000) (scaleOf layer)
               (lastEntryColor (scaleOf layer))) ::
            (if 1000 < c.entries.length then [] else c.entries)⟩ by
        simp [getColorCached, hfind]]
      intro p hp
      rcases List.mem_cons.mp hp with hhead | htail
      · exact ⟨layer, mkRat n 1000, by rw [hhead], ⟨n, rfl⟩,
          by subst hhead; rfl⟩
      · by_cases hlen : 1000 < c.entries.length
        · rw [if_pos hlen] at htail
          exact absurd htail (List.not_mem_nil p)
        · rw [if_neg hlen] at htail
          exact hc p htail

/-- The empty cache is consistent. -/
theorem emptyCache_consistent : CacheConsistent emptyCache :=
  fun p hp => absurd hp (List.not_mem_nil p)

/-- Consistency is preserved along any sequence of lookups whose finite
values are all exact at three decimals. -/
theorem cacheAfter_consistent :
    ∀ (prior : List (Layer × Option ℚ)) (c : CacheState),
      CacheConsistent c →
      (∀ p ∈ prior, ∀ q : ℚ, p.2 = some q → exact3 q) →
      CacheConsistent (cacheAfter prior c)
  | [], _, hc, _ => hc
  | (l, v) :: rest, c, hc, hall => by
    have hrest : ∀ p ∈ rest, ∀ q : ℚ, p.2 = some q → exact3 q :=
      fun p hp => hall p (List.mem_cons_of_mem _ hp)
    cases v with
    | none => exact cacheAfter_consistent rest c hc hrest
    | some q =>
      have hq : exact3 q := hall (l, some q) (List.mem_cons_self _ _) q rfl
      exact cacheAfter_consistent rest _
        (getColorCached_exact l q c hc hq).2 hrest

/-- A sorted list splits into a ranked shown prefix and a dominated rest. -/
theorem sorted_take_drop (l : List Operator) (n : ℕ)
    (h : List.Sorted opGE l) : RankedTopN (l.take n) (l.drop n) := by
  constructor
  · exact List.Pairwise.sublist (List.take_sublist n l) h
  · have h2 : List.Pairwise opGE (l.take n ++ l.drop n) := by
      rw [List.take_append_drop]
      exact h
    exact (List.pairwise_append.mp h2).2.2

-- ===========================================================================
-- Claim theorems
-- ===========================================================================

/-- Claim C1: for each of the three scales (penetration, demographic,
attractiveness) the thresholds are strictly increasing, and for every finite
value the lookup returns the color of the first entry in ascending threshold
order whose threshold is at least the value, or the color of the last entry
when the value exceeds every threshold; a non-finite input returns the fixed
neutral color #cbd5e1; and the cached getColor run on a fresh cache agrees
with this cache-free computation. -/
theorem c1_getColor_threshold_lookup :
    (∀ layer : Layer,
      strictIncr ((scaleOf layer).map ScaleEntry.threshold) = true) ∧
    (∀ (layer : Layer) (v : ℚ),
      getColorPure layer (some v) = specFirstColorGE (scaleOf layer) v) ∧
    (∀ layer : Layer, getColorPure layer none = neutralColor) ∧
    (∀ (layer : Layer) (v : Option ℚ),
      (getColorCached layer v emptyCache).1 = getColorPure layer v) := by
  refine ⟨?_, ?_, ?_, ?_⟩
  · intro layer
    cases layer <;> decide
  · intro layer v
    exact colorLoop_eq_find v (scaleOf layer) (lastEntryColor (scaleOf layer))
  · intro layer
    rfl
  · intro layer v
    cases v <;> rfl

/-- Claim C2: the filter predicate is total and fail-closed: an absent record
is excluded under every filter setting, and under the default filters
(minPop 0, minDensity 0, excludeNYC false) no region whose present numeric
fields are nonnegative counts is excluded. -/
theorem c2_isFiltered_fail_closed :
    (∀ flt : Filters, isFiltered flt none = true) ∧
    (∀ c : County,
      (∀ q : ℚ, c.population_2023 = some q → 0 ≤ q) →
      (∀ q : ℚ, c.housing_density = some q → 0 ≤ q) →
      isFiltered initialFilters (some c) = false) := by
  constructor
  · intro _
    rfl
  · intro c hp hd
    have h1 : jsLt c.population_2023 (0 : ℚ) = false := by
      cases hpop : c.population_2023 with
      | none => rfl
      | some q =>
        simp only [jsLt, decide_eq_false_iff_not, not_lt]
        exact hp q hpop
    have h2 : jsLt c.housing_density (0 : ℚ) = false := by
      cases hden : c.housing_density with
      | none => rfl
      | some q =>
        simp only [jsLt, decide_eq_false_iff_not, not_lt]
        exact hd q hden
    simp [isFiltered, initialFilters, h1, h2]

/-- Witness for claim C2 at a concrete filter setting and county record. -/
theorem c2_isFiltered_fail_closed_witness :
    isFiltered ⟨1000, 50, true⟩ none = true ∧
    isFiltered initialFilters
      (some ⟨"Albany", false, some 100000, some 120, []⟩) = false := by
  constructor
  · exact c2_isFiltered_fail_closed.1 ⟨1000, 50, true⟩
  · refine c2_isFiltered_fail_closed.2 ⟨"Albany", false, some 100000, some 120, []⟩
      (fun q hq => ?_) (fun q hq => ?_)
    · injection hq with h
      rw [← h]
      norm_num
    · injection hq with h
      rw [← h]
      norm_num

/-- Claim C3 (counterexample): loadData is not atomic. From the previous
successful state, when every fetch succeeds with an ok response but the second
json() parse fails, the load reports failure while the NY unified dataset
field has already been overwritten: a failed load does change the dataset
fields. -/
theorem c3_loadData_counterexample :
    ¬ (∀ (s : DHState) (o1 : FetchOutcome (List ℕ))
        (o2 o3 o4 : FetchOutcome ℕ),
        (loadData s o1 o2 o3 o4).2 = false →
        datasets (loadData s o1 o2 o3 o4).1 = datasets s) := by
  intro h
  have h2 := h c3PrevState (.response true (some [9])) (.response true none)
    (.response true (some 3)) (.response true (some 4)) (by decide)
  exact absurd h2 (by decide)

/-- Claim C3 (amended): transport-level failures (a rejected fetch or a
non-ok response) are atomic: they report failure and leave all four dataset
fields unchanged. A successful load assigns all four freshly parsed payloads
and sets the loaded flag. But parse-level failure is not atomic: when the
second json() call fails, the unified dataset keeps its freshly parsed value
while the other three retain the prior state, and failure is reported. -/
theorem c3_loadData_partial_on_parse_failure :
    (∀ (s : DHState) (o1 : FetchOutcome (List ℕ))
        (o2 o3 o4 : FetchOutcome ℕ),
      transportFails o1 o2 o3 o4 = true →
      datasets (loadData s o1 o2 o3 o4).1 = datasets s ∧
        (loadData s o1 o2 o3 o4).2 = false) ∧
    (∀ (s : DHState) (o1 : FetchOutcome (List ℕ))
        (o2 o3 o4 : FetchOutcome ℕ),
      (loadData s o1 o2 o3 o4).2 = true →
      ∃ v1 v2 v3 v4, o1 = .response true (some v1) ∧
        o2 = .response true (some v2) ∧ o3 = .response true (some v3) ∧
        o4 = .response true (some v4) ∧ v1 ≠ [] ∧
        (loadData s o1 o2 o3 o4).1 =
          ⟨some v1, some v2, some v3, some v4, true, none⟩) ∧
    (∀ (s : DHState) (v1 : List ℕ) (p3 p4 : Option ℕ),
      loadData s (.response true (some v1)) (.response true none)
          (.response true p3) (.response true p4) =
        (failState { s with unifiedData := some v1 } "parse error", false)) := by
  refine ⟨?_, ?_, ?_⟩
  · intro s o1 o2 o3 o4 h
    cases o1 with
    | rejected => simp [loadData, failState, datasets]
    | response ok1 p1 =>
      cases o2 with
      | rejected => simp [loadData, failState, datasets]
      | response ok2 p2 =>
        cases o3 with
        | rejected => simp [loadData, failState, datasets]
        | response ok3 p3 =>
          cases o4 with
          | rejected => simp [loadData, failState, datasets]
          | response ok4 p4 =>
            cases ok1 <;> cases ok2 <;> cases ok3 <;> cases ok4 <;>
              simp_all [loadData, failState, datasets, transportFails,
                isRejected, isNotOk]
  · intro s o1 o2 o3 o4 h
    cases o1 with
    | rejected => simp [loadData] at h
    | response ok1 p1 =>
      cases o2 with
      | rejected => simp [loadData] at h
      | response ok2 p2 =>
        cases o3 with
        | rejected => simp [loadData] at h
        | response ok3 p3 =>
          cases o4 with
          | rejected => simp [loadData] at h
          | response ok4 p4 =>
            cases ok1 with
            | false => simp [loadData] at h
            | true =>
              cases ok2 with
              | false => simp [loadData] at h
              | true =>
                cases ok3 with
                | false => simp [loadData] at h
                | true =>
                  cases ok4 with
                  | false => simp [loadData] at h
                  | true =>
                    cases p1 with
                    | none => simp [loadData] at h
                    | some v1 =>
                      cases p2 with
                      | none => simp [loadData] at h
                      | some v2 =>
                        cases p3 with
                        | none => simp [loadData] at h
                        | some v3 =>
                          cases p4 with
                          | none => simp [loadData] at h
                          | some v4 =>
                            by_cases hv : v1 = []
                            · simp [loadData, hv] at h
                            · exact ⟨v1, v2, v3, v4, rfl, rfl, rfl, rfl, hv,
                                by simp [loadData, hv]⟩
  · intro s v1 p3 p4
    rfl

/-- Witness for the amended claim C3: a rejected fetch leaves the previous
state intact, and a fully successful load assigns all four datasets. -/
theorem c3_loadData_partial_witness :
    (datasets (loadData c3PrevState .rejected .rejected .rejected
        .rejected).1 = datasets c3PrevState ∧
      (loadData c3PrevState .rejected .rejected .rejected .rejected).2 =
        false) ∧
    (∃ v1 v2 v3 v4,
      (FetchOutcome.response true (some [7]) : FetchOutcome (List ℕ)) =
        .response true (some v1) ∧
      (FetchOutcome.response true (some 8) : FetchOutcome ℕ) =
        .response true (some v2) ∧
      (FetchOutcome.response true (some 9) : FetchOutcome ℕ) =
        .response true (some v3) ∧
      (FetchOutcome.response true (some 10) : FetchOutcome ℕ) =
        .response true (some v4) ∧ v1 ≠ [] ∧
      (loadData c3PrevState (.response true (some [7]))
          (.response true (some 8)) (.response true (some 9))
          (.response true (some 10))).1 =
        ⟨some v1, some v2, some v3, some v4, true, none⟩) := by
  constructor
  · exact c3_loadData_partial_on_parse_failure.1 c3PrevState .rejected
      .rejected .rejected .rejected (by decide)
  · exact c3_loadData_partial_on_parse_failure.2.1 c3PrevState
      (.response true (some [7])) (.response true (some 8))
      (.response true (some 9)) (.response true (some 10)) (by decide)

/-- Claim C4 (counterexample): drilling down with the NY GeoJSON absent is not
a no-op: from the national view with focus index 5 and rendered states, the
attempted transition changes the view-state fields. -/
theorem c4_drillDown_counterexample :
    drillDownToNY none c4StartState ≠ c4StartState := by
  decide

/-- Claim C4 (amended): when the NY GeoJSON has not loaded, drillDownToNY
returns before rendering, but only after setting the granularity to ny,
clearing the rendered map content and resetting the focus index to -1; the
stored county elements (and all other state) are unchanged. The prior view
state is not retained. -/
theorem c4_drillDown_absent_geojson :
    ∀ s : MapViewState,
      drillDownToNY none s =
        { s with currentView := "ny", mapContent := [],
                 focusedCountyIndex := -1 } :=
  fun _ => rfl

/-- Claim C5: clicking county A and then a different county B always leaves
exactly B pinned: the pinned selection after the second click is B, the
pinned CSS class marks B and only B, and in every state reachable from the
initial state by click events the class marks exactly the (at most one)
pinned county. -/
theorem c5_click_exactly_B_pinned :
    (∀ (hasData : String → Bool) (s : PinState) (A B : String), A ≠ B →
      (handleCountyClick hasData B
          (handleCountyClick hasData A s)).pinnedCounty = some B ∧
      ∀ x, ((handleCountyClick hasData B
          (handleCountyClick hasData A s)).pinnedClass x = true ↔ x = B)) ∧
    (∀ (hasData : String → Bool) (evs : List String) (x : String),
      ((runClicks hasData evs initialPinState).pinnedClass x = true ↔
        (runClicks hasData evs initialPinState).pinnedCounty = some x)) := by
  constructor
  · intro hasData s A B hAB
    have hs1 : (handleCountyClick hasData A s).pinnedCounty = none ∨
        (handleCountyClick hasData A s).pinnedCounty = some A := by
      unfold handleCountyClick
      by_cases hp : s.pinnedCounty = some A
      · left
        rw [if_pos hp, unpinCounty_eq]
      · right
        rw [if_neg hp]
        exact (pinCounty_fields hasData A s).1
    have hne : (handleCountyClick hasData A s).pinnedCounty ≠ some B := by
      rcases hs1 with h | h <;> rw [h] <;> simp [hAB]
    constructor
    · rw [handleCountyClick_of_ne hasData B _ hne]
      exact (pinCounty_fields hasData B _).1
    · intro x
      rw [handleCountyClick_of_ne hasData B _ hne]
      have hc := congrFun (pinCounty_fields hasData B
        (handleCountyClick hasData A s)).2.1 x
      rw [hc]
      simp
  · intro hasData evs x
    exact runClicks_inv hasData evs initialPinState
      (by intro y; simp [initialPinState]) x

/-- Witness for claim C5: clicking 36001 and then 36003 from the initial
state pins exactly 36003. -/
theorem c5_click_exactly_B_pinned_witness :
    (handleCountyClick (fun _ => true) "36003"
        (handleCountyClick (fun _ => true) "36001"
          initialPinState)).pinnedCounty = some "36003" :=
  (c5_click_exactly_B_pinned.1 (fun _ => true) initialPinState "36001"
    "36003" (by decide)).1

/-- Claim C7: a table row is hidden exactly when the threshold filter excludes
its region or the region name does not contain the search term as a
case-insensitive substring; a missing record always hides the row; the empty
search term matches every name. The stored term is the lowercased input, as
assigned by the search handler. -/
theorem c7_row_hidden_iff :
    (∀ (flt : Filters) (raw : String) (c : County),
      rowHidden flt (toLowerStr raw) (some c) =
        (isFiltered flt (some c) || !(ciContains c.name raw))) ∧
    (∀ (flt : Filters) (term : String), rowHidden flt term none = true) ∧
    (∀ name : String, ciContains name "" = true) := by
  refine ⟨?_, ?_, ?_⟩
  · intro flt raw c
    by_cases hr : (toLowerStr raw).data = []
    · have hX : jsIncludes (toLowerStr c.name) (toLowerStr raw) = true := by
        unfold jsIncludes
        rw [hr]
        exact charsContain_nil _
      simp [rowHidden, ciContains, strFalsy, hr, hX]
    · have hf : strFalsy (toLowerStr raw) = false := by
        simp [strFalsy, List.isEmpty_iff, hr]
      simp [rowHidden, ciContains, hf]
  · intro flt term
    rfl
  · intro name
    unfold ciContains jsIncludes
    exact charsContain_nil _

/-- Claim C9: pinning and unpinning are idempotent: pinning a county twice is
the same as pinning it once (the whole state, visuals included, is unchanged
by the repeat), repinning an already pinned county leaves the pinned
selection unchanged, unpinning twice is the same as unpinning once, and
unpinning with nothing pinned leaves the pinned selection null. -/
theorem c9_pin_unpin_idempotent :
    (∀ (hasData : String → Bool) (f : String) (s : PinState),
      pinCounty hasData f (pinCounty hasData f s) = pinCounty hasData f s) ∧
    (∀ s : PinState, unpinCounty (unpinCounty s) = unpinCounty s) ∧
    (∀ (hasData : String → Bool) (f : String) (s : PinState),
      s.pinnedCounty = some f →
      (pinCounty hasData f s).pinnedCounty = s.pinnedCounty) ∧
    (∀ s : PinState, s.pinnedCounty = none →
      (unpinCounty s).pinnedCounty = s.pinnedCounty) := by
  refine ⟨?_, ?_, ?_, ?_⟩
  · intro hasData f s
    unfold pinCounty showCountyInfo
    by_cases h : hasData f <;> simp [h]
  · intro s
    rfl
  · intro hasData f s h
    rw [(pinCounty_fields hasData f s).1, h]
  · intro s h
    rw [unpinCounty_eq, h]

/-- Witness for claim C9 at a concrete county and state. -/
theorem c9_pin_unpin_idempotent_witness :
    pinCounty (fun _ => true) "36005"
        (pinCounty (fun _ => true) "36005" initialPinState) =
      pinCounty (fun _ => true) "36005" initialPinState ∧
    (pinCounty (fun _ => true) "36005"
        ⟨some "36005", fun x => decide (x = "36005"), true,
          some "36005"⟩).pinnedCounty =
      (⟨some "36005", fun x => decide (x = "36005"), true,
          some "36005"⟩ : PinState).pinnedCounty ∧
    (unpinCounty initialPinState).pinnedCounty =
      initialPinState.pinnedCounty :=
  ⟨c9_pin_unpin_idempotent.1 (fun _ => true) "36005" initialPinState,
   c9_pin_unpin_idempotent.2.2.1 (fun _ => true) "36005"
     ⟨some "36005", fun x => decide (x = "36005"), true, some "36005"⟩ rfl,
   c9_pin_unpin_idempotent.2.2.2 initialPinState rfl⟩

/-- Claim C8: reselecting the current sort column toggles the direction and
keeps the column; selecting a different column sets that column with
descending direction. -/
theorem c8_sort_transition :
    (∀ s : SortState,
      clickSortHeader s.sortColumn s =
        ⟨s.sortColumn, toggleDir s.sortDirection⟩) ∧
    (∀ (s : SortState) (c : String), s.sortColumn ≠ c →
      clickSortHeader c s = ⟨c, SortDir.desc⟩) := by
  constructor
  · intro s
    simp [clickSortHeader]
  · intro s c h
    simp [clickSortHeader, h]

/-- Witness for claim C8 at a concrete sort state and columns. -/
theorem c8_sort_transition_witness :
    clickSortHeader "attractiveness_index" ⟨"attractiveness_index", .desc⟩ =
      ⟨"attractiveness_index", .asc⟩ ∧
    clickSortHeader "median_hhi" ⟨"attractiveness_index", .desc⟩ =
      ⟨"median_hhi", .desc⟩ := by
  constructor
  · exact c8_sort_transition.1 ⟨"attractiveness_index", .desc⟩
  · exact c8_sort_transition.2 ⟨"attractiveness_index", .desc⟩ "median_hhi"
      (by decide)

/-- Claim C6 (counterexample): the memoized lookup is not observationally
identical to the uncached computation. The toFixed(3) cache key aliases
0.2999 and 0.3004 on the penetration scale: after looking up 0.2999, a
lookup of 0.3004 returns the cached color of the bucket below the 0.3
threshold instead of its own color. -/
theorem c6_cache_counterexample :
    ¬ (∀ (prior : List (Layer × Option ℚ)) (layer : Layer) (v : ℚ),
        (getColorCached layer (some v) (cacheAfter prior emptyCache)).1 =
          getColorPure layer (some v)) := by
  intro h
  have h2 := h [(.penetration, some (mkRat 2999 10000))] .penetration
    (mkRat 3004 10000)
  exact absurd h2 (by decide)

/-- Claim C6 (amended): restricted to values exact at three decimals (on
which the toFixed(3) cache key is injective), the memoized lookup is
observationally identical to the uncached computation regardless of the
cache contents accumulated from any prior sequence of such lookups; and from
a cleared cache any single lookup agrees with the uncached computation. For
general values, key aliasing across a threshold can return a stale
neighboring color. -/
theorem c6_cache_exact_refines_pure :
    (∀ (prior : List (Layer × Option ℚ)) (layer : Layer) (v : ℚ),
      (∀ p ∈ prior, ∀ q : ℚ, p.2 = some q → exact3 q) → exact3 v →
      (getColorCached layer (some v) (cacheAfter prior emptyCache)).1 =
        getColorPure layer (some v)) ∧
    (∀ (layer : Layer) (v : Option ℚ),
      (getColorCached layer v emptyCache).1 = getColorPure layer v) := by
  constructor
  · intro prior layer v hall hv
    exact (getColorCached_exact layer v (cacheAfter prior emptyCache)
      (cacheAfter_consistent prior emptyCache emptyCache_consistent hall)
      hv).1
  · intro layer v
    cases v <;> rfl

/-- Witness for the amended claim C6: after an exact lookup of 0.500, an
exact lookup of 0.300 still returns the uncached color. -/
theorem c6_cache_exact_refines_pure_witness :
    (getColorCached .penetration (some (mkRat 300 1000))
        (cacheAfter [(.penetration, some (mkRat 500 1000))] emptyCache)).1 =
      getColorPure .penetration (some (mkRat 300 1000)) :=
  c6_cache_exact_refines_pure.1 [(.penetration, some (mkRat 500 1000))]
    .penetration (mkRat 300 1000)
    (by
      intro p hp q hq
      rw [List.mem_singleton] at hp
      subst hp
      injection hq with h2
      exact ⟨500, h2.symm⟩)
    ⟨300, rfl⟩

/-- Claim C10 (counterexample): the state detail panel operator list is not
ranked by passings: on a record whose stored operators list is ascending,
slice(0, 6) displays an operator with 1 passing before one with 5. -/
theorem c10_state_panel_counterexample :
    ¬ RankedTopN (topStateOperators c10Ops) (c10Ops.drop 6) := by
  intro h
  have h2 := List.rel_of_sorted_cons h.1 ⟨"OpB", some 5⟩
    (List.mem_singleton.mpr rfl)
  simp [opGE, passingsVal] at h2

/-- Claim C10 (amended): the county detail panel top five are ranked by
passings descending (every displayed operator has at least the passings of
every operator after it and of every operator not displayed, with a missing
passings count read as 0); the state detail panel takes the first six
operators in stored order without sorting, so its list is ranked only when
the stored operators list is already descending. -/
theorem c10_top_operators_ranked :
    (∀ c : County,
      RankedTopN (topCountyOperators c)
        ((sortOperators c.operators).drop 5)) ∧
    (∀ ops : List Operator, List.Sorted opGE ops →
      RankedTopN (topStateOperators ops) (ops.drop 6)) := by
  constructor
  · intro c
    exact sorted_take_drop (sortOperators c.operators) 5
      (List.sorted_insertionSort opGE c.operators)
  · intro ops h
    exact sorted_take_drop ops 6 h

/-- Witness for the amended claim C10: a county record with an unsorted
operators list gets a ranked county top five, and a descending state
operators list gives a ranked state top six. -/
theorem c10_top_operators_ranked_witness :
    RankedTopN
      (topCountyOperators ⟨"Kings", true, some 2736074, some 37000,
        [⟨"OpA", some 1⟩, ⟨"OpB", some 5⟩, ⟨"OpC", none⟩]⟩)
      ((sortOperators
        [⟨"OpA", some 1⟩, ⟨"OpB", some 5⟩, ⟨"OpC", none⟩]).drop 5) ∧
    RankedTopN (topStateOperators [⟨"OpB", some 5⟩, ⟨"OpA", some 1⟩])
      ([(⟨"OpB", some 5⟩ : Operator), ⟨"OpA", some 1⟩].drop 6) := by
  constructor
  · exact c10_top_operators_ranked.1 ⟨"Kings", true, some 2736074,
      some 37000, [⟨"OpA", some 1⟩, ⟨"OpB", some 5⟩, ⟨"OpC", none⟩]⟩
  · exact c10_top_operators_ranked.2 [⟨"OpB", some 5⟩, ⟨"OpA", some 1⟩]
      (List.sorted_cons.mpr ⟨by
        intro b hb
        rw [List.mem_singleton] at hb
        subst hb
        decide, List.sorted_singleton _⟩)

end FiberMarket
